import Mathlib

/-!
Verification of the Hexaequo-V3 development HTTP server (`dev_server.py`).

The script subclasses the standard library's `SimpleHTTPRequestHandler`,
overriding `end_headers` (to inject three cache-disabling headers) and
`log_message` (to colorize the log line), then serves on port 8000 with a
plain `socketserver.TCPServer` until a `KeyboardInterrupt`.

Python strings are embedded as Lean `String`s (a `String` here is a list of
characters, matching Python's sequence-of-code-points view); the per-request
and process-level control flow is embedded as explicit state passing.
Behavior the script inherits from the standard library base classes
(`BaseHTTPRequestHandler`, `SimpleHTTPRequestHandler`, `socketserver`) is
embedded from those base classes where a claim depends on it; each such
definition's doc comment names the inherited method it embeds.
-/

namespace DevServer

/-- `PORT = 8000` (module-level constant in dev_server.py). -/
def PORT : Nat := 8000

/-- Python `s.startswith(p)` for a single-character prefix `p`: true iff the
string is nonempty and its first character is `c`. -/
def pyStartsWith (s : String) (c : Char) : Bool :=
  match s.data with
  | [] => false
  | d :: _ => d == c

/-- The color-selection chain in `NoCacheHTTPRequestHandler.log_message`:
`if status_code.startswith('2') ... elif ... else '\x1b[0m'`. -/
def statusColor (status_code : String) : String :=
  if pyStartsWith status_code '2' then "\x1b[92m"
  else if pyStartsWith status_code '3' then "\x1b[94m"
  else if pyStartsWith status_code '4' then "\x1b[93m"
  else if pyStartsWith status_code '5' then "\x1b[91m"
  else "\x1b[0m"

/-- Python `%`-formatting restricted to the `%s` and `%d` conversions, which
are the only ones the handler's log formats use (`'"%s" %s %s'` from
`log_request`, `"code %d, message %s"` from `send_error`); arguments are
embedded as their printed string forms. Other characters pass through. -/
def pyFormatAux : List Char → List String → List Char
  | [], _ => []
  | '%' :: 's' :: rest, a :: as => a.data ++ pyFormatAux rest as
  | '%' :: 'd' :: rest, a :: as => a.data ++ pyFormatAux rest as
  | c :: rest, as => c :: pyFormatAux rest as

/-- `format % args` for the log formats (see `pyFormatAux`). -/
def pyFormat (fmt : String) (args : List String) : String :=
  String.mk (pyFormatAux fmt.data args)

/-- A response's header block while it is being built: the buffered header
lines, and whether the block has been terminated (blank line sent). -/
structure HeadersState where
  entries : List (String × String)
  terminated : Bool

/-- `BaseHTTPRequestHandler.send_header`: appends one header line to the
block being built. -/
def send_header (h : HeadersState) (keyword value : String) : HeadersState :=
  { h with entries := h.entries ++ [(keyword, value)] }

/-- `BaseHTTPRequestHandler.end_headers` (the `super().end_headers()` call):
terminates the header block, after which the response is sent. -/
def base_end_headers (h : HeadersState) : HeadersState :=
  { h with terminated := true }

/-- `NoCacheHTTPRequestHandler.end_headers`, line for line: three
`send_header` calls followed by `super().end_headers()`. The base class
calls this exactly once for every response, whatever its status code or
content type, after the handler-specific headers have been sent. -/
def end_headers (h : HeadersState) : HeadersState :=
  base_end_headers
    (send_header
      (send_header
        (send_header h "Cache-Control" "no-store, no-cache, must-revalidate, max-age=0")
        "Pragma" "no-cache")
      "Expires" "0")

/-- The three cache-disabling headers, in the order the override sends them. -/
def noCacheHeaders : List (String × String) :=
  [("Cache-Control", "no-store, no-cache, must-revalidate, max-age=0"),
   ("Pragma", "no-cache"),
   ("Expires", "0")]

/-- `NoCacheHTTPRequestHandler.log_message`. `args[1]` raises `IndexError`
when fewer than two format arguments are supplied, embedded as `none`;
otherwise one line is printed:
`f"{address} - - [{ts}] {status_color}{format % args}{reset_color}"`,
where `address` is `self.address_string()` and `ts` is
`self.log_date_time_string()`. The result is the single printed line. -/
def log_message (address ts fmt : String) (args : List String) : Option String :=
  match args[1]? with
  | none => none
  | some status_code =>
      some (address ++ " - - [" ++ ts ++ "] " ++
        statusColor status_code ++ pyFormat fmt args ++ "\x1b[0m")

/-- The log line as the specification's words describe it (spec 4.1): the
ENTIRE message — client address, timestamp and request summary — wrapped in
the selected color, reset at the end. Stated from the spec's words, for
comparison against `log_message` (which is embedded from the source). -/
def specLogLine (address ts fmt : String) (args : List String) : Option String :=
  match args[1]? with
  | none => none
  | some status_code =>
      some (statusColor status_code ++ address ++ " - - [" ++ ts ++ "] " ++
        pyFormat fmt args ++ "\x1b[0m")

/-- `BaseHTTPRequestHandler.log_request` (inherited, not overridden):
`self.log_message('"%s" %s %s', self.requestline, str(code), str(size))`,
called once by `send_response` for every response line sent; `size`
defaults to `'-'`. -/
def log_request (address ts requestline : String) (code : Nat) : List String :=
  (log_message address ts "\x22%s\x22 %s %s" [requestline, toString code, "-"]).toList

/-- How one request was completed by the inherited handler: `ok code` for a
response produced by `send_response` alone (e.g. a 200 file response or a
301 redirect), `error code message` for one produced by `send_error`
(e.g. the 404 path of `SimpleHTTPRequestHandler.send_head`). -/
inductive RequestOutcome where
  | ok (code : Nat)
  | error (code : Nat) (message : String)

/-- The stdout lines printed while logging one completed request, following
the inherited `BaseHTTPRequestHandler` call structure: `send_error` first
calls `log_error(format, *args)` — whose base implementation forwards to
`self.log_message(format, *args)`, hence to the override — with
`("code %d, message %s", code, message)`, and then calls `send_response`,
which calls `log_request`, which calls `log_message` again; a response sent
via `send_response` alone calls `log_message` once, through `log_request`. -/
def logLinesFor (address ts requestline : String) : RequestOutcome → List String
  | RequestOutcome.ok code => log_request address ts requestline code
  | RequestOutcome.error code message =>
      (log_message address ts "code %d, message %s" [toString code, message]).toList
        ++ log_request address ts requestline code

/-- A GET request for an existing regular file, as seen by the inherited
`SimpleHTTPRequestHandler.send_head` (dev_server.py overrides neither
`do_GET` nor `send_head`): the request may carry an `If-Modified-Since`
validator (embedded, once parsed, as a UTC timestamp in whole seconds) and
may carry an `If-None-Match` header. -/
structure FileRequest where
  ifModifiedSince : Option Nat
  hasIfNoneMatch : Bool

/-- The conditional-GET branch of the inherited
`SimpleHTTPRequestHandler.send_head` (Python >= 3.8) for an existing
regular file with last-modified time `mtime` (truncated to whole seconds)
and current contents `contents`: when `If-Modified-Since` is present and
parses, `If-None-Match` is absent, and `last_modif <= ims`, it sends
`304 Not Modified` with no body; otherwise it sends 200 with the file's
current contents. Returns (status code, body). -/
def send_head (req : FileRequest) (mtime : Nat) (contents : List Nat) :
    Nat × Option (List Nat) :=
  match req.ifModifiedSince, req.hasIfNoneMatch with
  | some ims, false =>
      if mtime ≤ ims then (304, none) else (200, some contents)
  | _, _ => (200, some contents)

/-- Events observable in the connection-handling trace: handling of
connection `c` starts, or finishes. -/
inductive ConnEvent where
  | start (c : Nat)
  | finish (c : Nat)
deriving BEq, DecidableEq, Repr

/-- The handling trace produced by `socketserver.TCPServer.serve_forever`
for a queue of incoming connections: `BaseServer.serve_forever` handles
each ready connection via `_handle_request_noblock` → `process_request` →
`finish_request` synchronously on the single listening thread
(dev_server.py instantiates plain `TCPServer`; no `ThreadingMixIn` /
`ThreadingTCPServer` is involved), so each accepted connection is processed
to completion before the next one is accepted. -/
def serveTrace (conns : List Nat) : List ConnEvent :=
  conns.flatMap fun c => [ConnEvent.start c, ConnEvent.finish c]

/-- Connections `a` and `b` are handled concurrently in trace `tr` when `b`
starts strictly between `a`'s start and `a`'s finish. -/
def handledConcurrently (tr : List ConnEvent) (a b : Nat) : Bool :=
  tr.indexOf (ConnEvent.start a) < tr.indexOf (ConnEvent.start b) &&
  tr.indexOf (ConnEvent.start b) < tr.indexOf (ConnEvent.finish a)

/-- A trace is a sequential run when it is a sequence of immediately
completed handlings: each `start c` is at once followed by `finish c`. -/
def isSequentialRun : List ConnEvent → Bool
  | [] => true
  | ConnEvent.start c :: ConnEvent.finish c2 :: rest =>
      c == c2 && isSequentialRun rest
  | _ => false

/-- The four startup banner lines of dev_server.py, in print order, with the
f-string interpolations (`PORT`, `os.getcwd()`) as parameters. -/
def banner (port : Nat) (cwd : String) : List String :=
  ["\x1b[1;32mStarting server at http://localhost:" ++ toString port ++ "\x1b[0m",
   "\x1b[1;33mPress Ctrl+C to stop the server\x1b[0m",
   "\x1b[1;34mServing files from: " ++ cwd ++ "\x1b[0m",
   "\x1b[1;36mNo-cache headers enabled - browser will request fresh files on each reload\x1b[0m"]

/-- The shutdown message printed by the `KeyboardInterrupt` handler:
`print("\n\x1b[1;31mServer stopped\x1b[0m")`. -/
def stoppedLine : String := "\n\x1b[1;31mServer stopped\x1b[0m"

/-- One request completed while the server was running, with the values the
logging path of its handler observed. -/
structure CompletedRequest where
  address : String
  timestamp : String
  requestline : String
  outcome : RequestOutcome

/-- The log lines a completed request prints (see `logLinesFor`). -/
def logLinesOf (r : CompletedRequest) : List String :=
  logLinesFor r.address r.timestamp r.requestline r.outcome

/-- Observable result of one run of the script: the lines printed to
stdout, the error printed to stderr by Python's uncaught-exception handler
(if any), and the process exit status. -/
structure ProcessResult where
  stdout : List String
  stderr : Option String
  exitCode : Nat

/-- The top-level control flow of dev_server.py. The four banner lines are
printed first. Then `socketserver.TCPServer(("", PORT), Handler)` binds the
port: if binding raises (`bindResult = error e`), the exception propagates
uncaught — Python prints the error to stderr and the process exits with
status 1 — and no request is ever handled. Otherwise `serve_forever` runs,
handling `requests` to completion (each printing its log lines) until
`KeyboardInterrupt` is raised; the `except` clause prints the shutdown
message, the `with` block closes the socket, and the script falls off the
end, exiting with status 0. -/
def runScript (cwd : String) (bindResult : Except String Unit)
    (requests : List CompletedRequest) : ProcessResult :=
  match bindResult with
  | Except.error e =>
      { stdout := banner PORT cwd, stderr := some e, exitCode := 1 }
  | Except.ok _ =>
      { stdout := banner PORT cwd ++ requests.flatMap logLinesOf ++ [stoppedLine],
        stderr := none, exitCode := 0 }

end DevServer

namespace DevServer

/-! ## Helper lemmas -/

/-- Every line `log_message` prints contains the character `-` (from the
literal `" - - ["` between the address and the timestamp). -/
theorem dash_mem_of_log_message (a t f : String) (args : List String)
    (line : String) (h : log_message a t f args = some line) :
    '-' ∈ line.data := by
  cases hg : args[1]? with
  | none => simp [log_message, hg] at h
  | some s =>
      simp only [log_message, hg, Option.some.injEq] at h
      subst h
      have hl : '-' ∈ (" - - [" : String).data := by decide
      simp only [String.data_append, List.mem_append]
      tauto

/-- No line printed while logging a completed request is the shutdown line. -/
theorem log_lines_ne_stopped (r : CompletedRequest) (line : String)
    (h : line ∈ logLinesOf r) : line ≠ stoppedLine := by
  have hd : '-' ∈ line.data := by
    obtain ⟨a, t, rl, oc⟩ := r
    cases oc with
    | ok code =>
        simp only [logLinesOf, logLinesFor, log_request, Option.mem_toList,
          Option.mem_def] at h
        exact dash_mem_of_log_message _ _ _ _ _ h
    | error code msg =>
        simp only [logLinesOf, logLinesFor, log_request, List.mem_append,
          Option.mem_toList, Option.mem_def] at h
        rcases h with h | h <;> exact dash_mem_of_log_message _ _ _ _ _ h
  intro he
  rw [he] at hd
  exact absurd hd (by decide)

/-- The shutdown line is not one of the four banner lines. -/
theorem stopped_not_mem_banner (cwd : String) :
    stoppedLine ∉ banner PORT cwd := by
  intro h
  simp only [banner, PORT, List.mem_cons, List.not_mem_nil, or_false] at h
  rcases h with h | h | h | h
  · exact absurd h (by decide)
  · exact absurd h (by decide)
  · have hg : 'g' ∈ stoppedLine.data := by
      rw [h]
      have hl : 'g' ∈ ("\x1b[1;34mServing files from: " : String).data := by decide
      simp only [String.data_append, List.mem_append]
      tauto
    exact absurd hg (by decide)
  · exact absurd h (by decide)

end DevServer

namespace DevServer

/-! ## Claims -/

/-- Claim C1: for every response — whatever its status code or content
type — the finalized header block contains the three cache-disabling
headers with exactly their literal values, appended after the
handler-specific headers and before the block is terminated. -/
theorem end_headers_appends_no_cache (h : HeadersState) :
    (end_headers h).entries = h.entries ++ noCacheHeaders ∧
    (end_headers h).terminated = true := by
  simp [end_headers, send_header, base_end_headers, noCacheHeaders]

/-- Witness for C1 at a concrete header block. -/
theorem end_headers_appends_no_cache_witness :
    (end_headers { entries := [("Content-Type", "text/html")], terminated := false }).entries
      = [("Content-Type", "text/html")] ++ noCacheHeaders ∧
    (end_headers { entries := [("Content-Type", "text/html")], terminated := false }).terminated
      = true :=
  end_headers_appends_no_cache { entries := [("Content-Type", "text/html")], terminated := false }

/-- Claim C2: the ANSI color log_message selects is determined by the first
character of the status field (the second format argument): '2' yields
green, '3' blue, '4' yellow, '5' red, and any other value — including the
empty field — yields the default color code. -/
theorem statusColor_by_first_char (s : String) :
    (s.data.head? = some '2' → statusColor s = "\x1b[92m") ∧
    (s.data.head? = some '3' → statusColor s = "\x1b[94m") ∧
    (s.data.head? = some '4' → statusColor s = "\x1b[93m") ∧
    (s.data.head? = some '5' → statusColor s = "\x1b[91m") ∧
    (((s.data.head? = some '2' ∨ s.data.head? = some '3' ∨
        s.data.head? = some '4' ∨ s.data.head? = some '5') → False) →
      statusColor s = "\x1b[0m") := by
  obtain ⟨l⟩ := s
  cases l with
  | nil =>
      refine ⟨by simp, by simp, by simp, by simp, fun _ => rfl⟩
  | cons c rest =>
      refine ⟨?_, ?_, ?_, ?_, ?_⟩
      · intro h; simp only [List.head?_cons, Option.some.injEq] at h; subst h; rfl
      · intro h; simp only [List.head?_cons, Option.some.injEq] at h; subst h; rfl
      · intro h; simp only [List.head?_cons, Option.some.injEq] at h; subst h; rfl
      · intro h; simp only [List.head?_cons, Option.some.injEq] at h; subst h; rfl
      · intro h
        simp only [List.head?_cons, Option.some.injEq] at h
        have h2 : ¬ c = '2' := fun e => h (Or.inl e)
        have h3 : ¬ c = '3' := fun e => h (Or.inr (Or.inl e))
        have h4 : ¬ c = '4' := fun e => h (Or.inr (Or.inr (Or.inl e)))
        have h5 : ¬ c = '5' := fun e => h (Or.inr (Or.inr (Or.inr e)))
        simp [statusColor, pyStartsWith, h2, h3, h4, h5]

end DevServer

namespace DevServer

/-- Witness for C2 at concrete status fields of every class. -/
theorem statusColor_by_first_char_witness :
    statusColor "200" = "\x1b[92m" ∧ statusColor "304" = "\x1b[94m" ∧
    statusColor "404" = "\x1b[93m" ∧ statusColor "500" = "\x1b[91m" ∧
    statusColor "101" = "\x1b[0m" :=
  ⟨(statusColor_by_first_char "200").1 (by decide),
   (statusColor_by_first_char "304").2.1 (by decide),
   (statusColor_by_first_char "404").2.2.1 (by decide),
   (statusColor_by_first_char "500").2.2.2.1 (by decide),
   (statusColor_by_first_char "101").2.2.2.2 (by decide)⟩

/-- Claim C10: log_message indexes the second format argument
unconditionally, so with fewer than two arguments — as for the base
handler's one-argument log_error formats, e.g. a request-timeout message —
it raises IndexError (embedded as none); with at least two arguments it is
total and returns the printed line. -/
theorem log_message_total_iff_two_args (a t f : String) (args : List String) :
    (args.length < 2 → log_message a t f args = none) ∧
    (2 ≤ args.length → (log_message a t f args).isSome = true) := by
  constructor
  · intro h
    have hg : args[1]? = none := List.getElem?_eq_none_iff.mpr (by omega)
    simp [log_message, hg]
  · intro h
    cases hg : args[1]? with
    | none => rw [List.getElem?_eq_none_iff] at hg; omega
    | some s => simp [log_message, hg]

/-- Witness for C10: a one-argument timeout log raises, a three-argument
access log succeeds. -/
theorem log_message_total_iff_two_args_witness :
    log_message "127.0.0.1" "ts" "Request timed out: %r" ["timeout"] = none ∧
    (log_message "127.0.0.1" "ts" "\x22%s\x22 %s %s"
        ["GET / HTTP/1.1", "200", "1234"]).isSome = true :=
  ⟨(log_message_total_iff_two_args "127.0.0.1" "ts" "Request timed out: %r"
      ["timeout"]).1 (by decide),
   (log_message_total_iff_two_args "127.0.0.1" "ts" "\x22%s\x22 %s %s"
      ["GET / HTTP/1.1", "200", "1234"]).2 (by decide)⟩

/-- Claim C4 counterexample: at a concrete 200-status log call the printed
line places the client address and timestamp BEFORE the color escape, and
differs from the spec-described line in which the entire message is wrapped
in the selected color. -/
theorem log_line_not_fully_wrapped_cex :
    log_message "127.0.0.1" "10/Oct/2026 12:00:00" "\x22%s\x22 %s %s"
        ["GET / HTTP/1.1", "200", "1234"]
      = some ("127.0.0.1 - - [10/Oct/2026 12:00:00] " ++
          "\x1b[92m\x22GET / HTTP/1.1\x22 200 1234\x1b[0m") ∧
    (log_message "127.0.0.1" "10/Oct/2026 12:00:00" "\x22%s\x22 %s %s"
        ["GET / HTTP/1.1", "200", "1234"]
      == specLogLine "127.0.0.1" "10/Oct/2026 12:00:00" "\x22%s\x22 %s %s"
        ["GET / HTTP/1.1", "200", "1234"]) = false := by
  constructor <;> decide

/-- Claim C4 amended: the selected color wraps only the request summary
(format % args); the client address and timestamp precede the color escape
uncolored, and the reset code terminates the line. -/
theorem log_line_colors_summary_only (a t f : String) (args : List String)
    (status : String) (h : args[1]? = some status) :
    log_message a t f args =
      some (a ++ " - - [" ++ t ++ "] " ++
        (statusColor status ++ pyFormat f args ++ "\x1b[0m")) := by
  simp [log_message, h, String.append_assoc]

/-- Witness for the amended C4 at a concrete 404 access-log call. -/
theorem log_line_colors_summary_only_witness :
    log_message "127.0.0.1" "11/Oct/2026 09:30:00" "\x22%s\x22 %s %s"
        ["GET /a HTTP/1.1", "404", "13"] =
      some ("127.0.0.1" ++ " - - [" ++ "11/Oct/2026 09:30:00" ++ "] " ++
        (statusColor "404" ++
          pyFormat "\x22%s\x22 %s %s" ["GET /a HTTP/1.1", "404", "13"] ++ "\x1b[0m")) :=
  log_line_colors_summary_only "127.0.0.1" "11/Oct/2026 09:30:00" "\x22%s\x22 %s %s"
    ["GET /a HTTP/1.1", "404", "13"] "404" (by decide)

/-- Claim C3 counterexample: a request resulting in 404 is handled through
send_error, which logs twice — the error line, then the access-log line —
so this completed request prints two log lines, not at most one. -/
theorem error_request_logs_two_lines_cex :
    (logLinesFor "127.0.0.1" "10/Oct/2026 12:00:01" "GET /missing HTTP/1.1"
        (RequestOutcome.error 404 "File not found")).length = 2 := by
  decide

/-- Claim C3 amended: the log_message override replaces (never supplements)
the standard access-log line, so a request completed by send_response alone
prints exactly one log line; but a request handled via send_error (such as
a 404) prints two — the error line, then the access-log line. -/
theorem log_lines_per_request (a t rl : String) (code : Nat) (msg : String) :
    (logLinesFor a t rl (RequestOutcome.ok code)).length = 1 ∧
    (logLinesFor a t rl (RequestOutcome.error code msg)).length = 2 := by
  constructor <;> simp [logLinesFor, log_request, log_message]

/-- Witness for the amended C3 at a concrete request. -/
theorem log_lines_per_request_witness :
    (logLinesFor "10.0.0.5" "11/Oct/2026 10:00:00" "GET /ok HTTP/1.1"
        (RequestOutcome.ok 200)).length = 1 ∧
    (logLinesFor "10.0.0.5" "11/Oct/2026 10:00:00" "GET /ok HTTP/1.1"
        (RequestOutcome.error 403 "Forbidden")).length = 2 :=
  ⟨(log_lines_per_request "10.0.0.5" "11/Oct/2026 10:00:00" "GET /ok HTTP/1.1"
      200 "Forbidden").1,
   (log_lines_per_request "10.0.0.5" "11/Oct/2026 10:00:00" "GET /ok HTTP/1.1"
      403 "Forbidden").2⟩

end DevServer

namespace DevServer

/-- Claim C5 counterexample: a GET request for an existing file that
carries an If-Modified-Since validator at or after the file's modification
time receives 304 Not Modified with no body from the inherited send_head —
the injected no-cache response headers do not disable the server-side
conditional-GET handling. -/
theorem conditional_get_returns_304_cex :
    send_head { ifModifiedSince := some 100, hasIfNoneMatch := false } 50 [104, 105]
      = (304, none) := rfl

/-- Claim C5 amended: a GET request for an existing file that carries no
If-Modified-Since validator — in particular any request from a client that
honors the injected no-store/no-cache headers and therefore never caches
and never sends a validator — always receives 200 with the file's current
contents; only a request explicitly carrying If-Modified-Since at or after
the file's modification time receives 304. -/
theorem unconditional_get_never_304 (req : FileRequest) (mtime : Nat)
    (contents : List Nat) (h : req.ifModifiedSince = none) :
    send_head req mtime contents = (200, some contents) := by
  obtain ⟨ims, inm⟩ := req
  simp only at h
  subst h
  cases inm <;> rfl

/-- Witness for the amended C5 at a concrete validator-free request. -/
theorem unconditional_get_never_304_witness :
    send_head { ifModifiedSince := none, hasIfNoneMatch := false } 50 [104, 105]
      = (200, some [104, 105]) :=
  unconditional_get_never_304
    { ifModifiedSince := none, hasIfNoneMatch := false } 50 [104, 105] rfl

/-- Claim C9 counterexample: in the serve trace of two queued connections,
the second connection's handling does not start before the first one
finishes — the plain synchronous TCPServer handles them back to back, so
one in-flight request does prevent concurrent handling of another. -/
theorem no_concurrent_handling_cex :
    serveTrace [0, 1] = [ConnEvent.start 0, ConnEvent.finish 0,
        ConnEvent.start 1, ConnEvent.finish 1] ∧
    handledConcurrently (serveTrace [0, 1]) 0 1 = false := by
  constructor <;> rfl

/-- Claim C9 amended: the server is a plain synchronous TCPServer (no
ThreadingMixIn): every accepted connection is handled to completion on the
single listening thread before the next connection is accepted, so the
handling trace of any sequence of connections is a strictly sequential
run — each start is immediately followed by the matching finish. -/
theorem serveTrace_sequential (conns : List Nat) :
    isSequentialRun (serveTrace conns) = true := by
  induction conns with
  | nil => rfl
  | cons c cs ih => simpa [serveTrace, isSequentialRun] using ih

/-- Witness for the amended C9 at a concrete connection queue. -/
theorem serveTrace_sequential_witness :
    isSequentialRun (serveTrace [2, 3, 5]) = true :=
  serveTrace_sequential [2, 3, 5]

end DevServer

namespace DevServer

/-- Claim C8: on launch, before any request is served, the first four
stdout lines are exactly the four banner lines, in fixed order and fixed
colors: bold green URL for port 8000, bold yellow Ctrl+C instruction, bold
blue working directory being served, bold cyan no-cache note. -/
theorem startup_banner_first (cwd : String) (bindResult : Except String Unit)
    (requests : List CompletedRequest) :
    (runScript cwd bindResult requests).stdout.take 4 = banner PORT cwd ∧
    banner PORT cwd =
      ["\x1b[1;32mStarting server at http://localhost:8000\x1b[0m",
       "\x1b[1;33mPress Ctrl+C to stop the server\x1b[0m",
       "\x1b[1;34mServing files from: " ++ cwd ++ "\x1b[0m",
       "\x1b[1;36mNo-cache headers enabled - browser will request fresh files on each reload\x1b[0m"] := by
  constructor
  · have hlen : (banner PORT cwd).length = 4 := rfl
    cases bindResult with
    | error e =>
        show (banner PORT cwd).take 4 = banner PORT cwd
        rw [← hlen, List.take_length]
    | ok u =>
        show ((banner PORT cwd ++ _) ++ _).take 4 = banner PORT cwd
        rw [List.append_assoc, ← hlen, List.take_left]
  · rfl

/-- Witness for C8 at a concrete working directory and run. -/
theorem startup_banner_first_witness :
    (runScript "/home/dev/hexaequo" (Except.ok ()) []).stdout.take 4
      = banner PORT "/home/dev/hexaequo" ∧
    banner PORT "/home/dev/hexaequo" =
      ["\x1b[1;32mStarting server at http://localhost:8000\x1b[0m",
       "\x1b[1;33mPress Ctrl+C to stop the server\x1b[0m",
       "\x1b[1;34mServing files from: " ++ "/home/dev/hexaequo" ++ "\x1b[0m",
       "\x1b[1;36mNo-cache headers enabled - browser will request fresh files on each reload\x1b[0m"] :=
  startup_banner_first "/home/dev/hexaequo" (Except.ok ()) []

/-- Claim C7: if binding port 8000 fails at startup, the exception
propagates uncaught — the process prints the underlying error and exits
with status 1 (non-zero) — and no request is ever served: stdout holds
only the startup banner, never a request log line. -/
theorem bind_failure_fatal (cwd : String) (e : String)
    (requests : List CompletedRequest) :
    (runScript cwd (Except.error e) requests).exitCode = 1 ∧
    (runScript cwd (Except.error e) requests).stderr = some e ∧
    (runScript cwd (Except.error e) requests).stdout = banner PORT cwd :=
  ⟨rfl, rfl, rfl⟩

/-- Witness for C7 at a concrete bind error. -/
theorem bind_failure_fatal_witness :
    (runScript "/srv" (Except.error "[Errno 98] Address already in use") []).exitCode = 1 ∧
    (runScript "/srv" (Except.error "[Errno 98] Address already in use") []).stderr
      = some "[Errno 98] Address already in use" ∧
    (runScript "/srv" (Except.error "[Errno 98] Address already in use") []).stdout
      = banner PORT "/srv" :=
  bind_failure_fatal "/srv" "[Errno 98] Address already in use" []

/-- Claim C6: when KeyboardInterrupt arrives while the server is running,
the process exits with status 0, its stdout ends with the bold red Server
stopped line, that line is printed exactly once (it appears nowhere among
the banner and request-log lines), and nothing is printed after it. -/
theorem interrupt_clean_shutdown (cwd : String)
    (requests : List CompletedRequest) :
    (runScript cwd (Except.ok ()) requests).exitCode = 0 ∧
    (runScript cwd (Except.ok ()) requests).stdout
      = (banner PORT cwd ++ requests.flatMap logLinesOf) ++ [stoppedLine] ∧
    stoppedLine ∉ banner PORT cwd ++ requests.flatMap logLinesOf := by
  refine ⟨rfl, by simp [runScript], ?_⟩
  intro hmem
  rcases List.mem_append.mp hmem with h | h
  · exact stopped_not_mem_banner cwd h
  · obtain ⟨r, _, hline⟩ := List.mem_flatMap.mp h
    exact log_lines_ne_stopped r stoppedLine hline rfl

/-- Witness for C6 at a concrete run with one served request. -/
theorem interrupt_clean_shutdown_witness :
    (runScript "/srv/site" (Except.ok ())
        [{ address := "127.0.0.1", timestamp := "11/Oct/2026 10:05:00",
           requestline := "GET /index.html HTTP/1.1",
           outcome := RequestOutcome.ok 200 }]).exitCode = 0 ∧
    (runScript "/srv/site" (Except.ok ())
        [{ address := "127.0.0.1", timestamp := "11/Oct/2026 10:05:00",
           requestline := "GET /index.html HTTP/1.1",
           outcome := RequestOutcome.ok 200 }]).stdout
      = (banner PORT "/srv/site" ++
          [{ address := "127.0.0.1", timestamp := "11/Oct/2026 10:05:00",
             requestline := "GET /index.html HTTP/1.1",
             outcome := RequestOutcome.ok 200 }].flatMap logLinesOf) ++ [stoppedLine] ∧
    stoppedLine ∉ banner PORT "/srv/site" ++
        [{ address := "127.0.0.1", timestamp := "11/Oct/2026 10:05:00",
           requestline := "GET /index.html HTTP/1.1",
           outcome := RequestOutcome.ok 200 }].flatMap logLinesOf :=
  interrupt_clean_shutdown "/srv/site"
    [{ address := "127.0.0.1", timestamp := "11/Oct/2026 10:05:00",
       requestline := "GET /index.html HTTP/1.1",
       outcome := RequestOutcome.ok 200 }]

end DevServer
